import Mathlib

/-!
Verification of the IMDb top-100 movies analysis pipeline (IMDb_EDA.py).

The script is a linear pandas pipeline: download two TSV tables, inner-join
them, filter to feature films, coerce year and runtime, sort by vote count,
take the first 100 rows, rank them, and then report, visualize and print
per-genre leaderboards.  We embed the tabular data model shallowly: a
dataframe is a list of fixed-shape records plus a flag recording whether the
derived Decade column has been added.  Library primitives that the script
relies on (string split, substring containment, numeric coercion) are
re-implemented structurally over lists of characters so that every
definition evaluates inside the kernel.

Modelling conventions, noted where they matter:
* pandas nullable values (pd.NA / NaN) are Option-valued fields;
* the identifier column tconst is an opaque join key, modelled as Nat;
* ratings are exact rationals (the float values in the data have short
  decimal expansions, and no claim depends on float rounding);
* sort_values with a single by-column defaults to kind=quicksort, which
  gives no tie-order guarantee; the embedding uses the stable
  List.insertionSort and no theorem below relies on the tie order it
  happens to produce (see the development notes at the sort definition).
-/

set_option maxHeartbeats 1600000
set_option maxRecDepth 4000

/-- One row of title.basics.tsv as read at line 15 of the script.  Only the
columns the script touches are carried (tconst, titleType, primaryTitle,
startYear, runtimeMinutes, genres); the raw TSV fields are strings, with the
literal marker given by two characters backslash-N standing for a missing
value.  tconst is an opaque join key. -/
structure BasicsRow where
  tconst : Nat
  titleType : String
  primaryTitle : String
  startYear : String
  runtimeMinutes : String
  genres : String
deriving DecidableEq

/-- One row of title.ratings.tsv as read at line 16 of the script: the join
key, the average rating and the vote count.  These two columns are numeric
in the source data. -/
structure RatingsRow where
  tconst : Nat
  averageRating : Rat
  numVotes : Nat
deriving DecidableEq

/-- A row of the public result set produced by the Transform step (columns
Rank, Title, Year, Rating, Votes, Runtime (min), Genres, line 43), plus the
Decade column that create_visualizations adds at line 103.  Nullable
columns are Option-valued; Decade is none until the Visualize step sets
it. -/
structure Movie where
  Rank : Nat
  Title : Option String
  Year : Option Int
  Rating : Rat
  Votes : Nat
  RuntimeMin : Option Int
  Genres : Option String
  Decade : Option Int
deriving DecidableEq

/-- A pandas DataFrame of movies: its rows together with a flag recording
whether the Decade column is present.  Rows are fixed-shape records, so
column membership is tracked by the flag. -/
structure DataFrame where
  rows : List Movie
  hasDecadeColumn : Bool
deriving DecidableEq

/-! ### String primitives, re-implemented structurally

The script uses str.split(sep=comma), substring containment
(Series.str.contains) and numeric coercion (pd.to_numeric).  The
corresponding Lean core String functions recurse on byte positions with
well-founded recursion and do not reduce in the kernel, so we give
structural implementations over lists of characters. -/

/-- Split a character list at every comma; models Python split(sep=comma),
including split of the empty string giving one empty piece. -/
def splitCommaAux : List Char → List (List Char)
  | [] => [[]]
  | x :: xs =>
    let r := splitCommaAux xs
    if x = ',' then [] :: r
    else
      match r with
      | [] => [[x]]
      | y :: ys => (x :: y) :: ys

/-- Python str.split(sep=comma) on a string. -/
def splitComma (s : String) : List String :=
  (splitCommaAux s.toList).map (fun cs => String.mk cs)

/-- Is the first character list a prefix of the second? -/
def isPrefixChars : List Char → List Char → Bool
  | [], _ => true
  | _ :: _, [] => false
  | c :: cs, d :: ds => c = d && isPrefixChars cs ds

/-- Does the second character list contain the first as a contiguous
substring? -/
def containsChars (needle : List Char) : List Char → Bool
  | [] => needle.isEmpty
  | d :: ds => isPrefixChars needle (d :: ds) || containsChars needle ds

/-- Substring containment on strings; models Series.str.contains at
line 123 (the genre labels contain no regex metacharacters, so the default
regex interpretation coincides with plain substring search). -/
def strContains (hay needle : String) : Bool :=
  containsChars needle.toList hay.toList

/-- Accumulate decimal digits; none when a non-digit appears. -/
def digitsToNat : List Char → Nat → Option Nat
  | [], acc => some acc
  | c :: cs, acc => if c.isDigit then digitsToNat cs (acc * 10 + (c.toNat - 48)) else none

/-- Models pd.to_numeric(errors=coerce) restricted to integer-valued
strings as they occur in the year and runtime columns: an optionally
negated digit string parses to its value, anything else coerces to the
missing value.  (On a non-integer numeric string the subsequent
astype(Int64) at line 26 would raise; such strings do not occur in the
columns being coerced and no claim depends on them.) -/
def parseIntStr (s : String) : Option Int :=
  match s.toList with
  | [] => none
  | '-' :: rest => if rest.isEmpty then none else (digitsToNat rest 0).map (fun n => -(n : Int))
  | l => (digitsToNat l 0).map (fun n => (n : Int))

/-! ### Transform: get_top_100_movies (lines 6 to 43) -/

/-- The literal missing-value marker of the IMDb TSV files: the two
characters backslash-N, written in the script as a Python string with an
escaped backslash (line 23). -/
def missingMarker : String := "\\N"

/-- replace(missing marker, pd.NA) applied to one string cell (line 23). -/
def cleanField (s : String) : Option String :=
  if s = missingMarker then none else some s

/-- Year and runtime coercion of one cell: the replace at line 23 followed
by pd.to_numeric(errors=coerce) at lines 26 and 27. -/
def coerceNumField (s : String) : Option Int :=
  (cleanField s).bind parseIntStr

/-- basics.merge(ratings, on=tconst) at line 19: an inner join keeping the
order of the left keys, and for each left row the matching right rows in
right-table order. -/
def mergeTables (basics : List BasicsRow) (ratings : List RatingsRow) :
    List (BasicsRow × RatingsRow) :=
  basics.flatMap (fun b => (ratings.filter (fun r => decide (r.tconst = b.tconst))).map (fun r => (b, r)))

/-- The join of line 19 followed by the type filter of line 22: keep rows
whose titleType is the literal "movie". -/
def filteredMerge (basics : List BasicsRow) (ratings : List RatingsRow) :
    List (BasicsRow × RatingsRow) :=
  (mergeTables basics ratings).filter (fun p => decide (p.1.titleType = "movie"))

/-- Row-wise cleaning and renaming: replace of the missing marker
(line 23), year coercion to nullable integer (line 26), runtime coercion
(line 27), and the rename/column selection of lines 34 to 43.  The Rank
column does not exist yet; the field is carried with placeholder value 0
and is assigned by rankRows below.  Decade is added only later, by
create_visualizations. -/
def cleanRow (p : BasicsRow × RatingsRow) : Movie :=
  { Rank := 0
    Title := cleanField p.1.primaryTitle
    Year := coerceNumField p.1.startYear
    Rating := p.2.averageRating
    Votes := p.2.numVotes
    RuntimeMin := coerceNumField p.1.runtimeMinutes
    Genres := cleanField p.1.genres
    Decade := none }

/-- Descending vote-count order used by sort_values(numVotes,
ascending=False) at line 30. -/
def voteOrder (a b : Movie) : Prop := b.Votes ≤ a.Votes

instance : DecidableRel voteOrder := fun a b => Nat.decLe b.Votes a.Votes

instance : IsTotal Movie voteOrder := ⟨fun a b => Nat.le_total b.Votes a.Votes⟩

instance : IsTrans Movie voteOrder := ⟨fun _ _ _ h h2 => le_trans h2 h⟩

/-- sort_values(numVotes, ascending=False) at line 30.  Development note:
pandas defaults to kind=quicksort here, which guarantees the descending
vote order but no particular order among rows with equal vote counts; the
embedding uses the stable List.insertionSort as one concrete choice, and
the theorems below do not depend on the order it gives tied rows. -/
def sortedMovies (basics : List BasicsRow) (ratings : List RatingsRow) : List Movie :=
  List.insertionSort voteOrder ((filteredMerge basics ratings).map cleanRow)

/-- head(100) at line 30. -/
def topCut (basics : List BasicsRow) (ratings : List RatingsRow) : List Movie :=
  (sortedMovies basics ratings).take 100

/-- insert(0, Rank, range(1, 101)) at line 31: assign ranks 1 to 100
positionally. -/
def rankRows (t : List Movie) : List Movie :=
  List.zipWith (fun i r => { r with Rank := i }) (List.range' 1 100) t

/-- The error pandas raises when DataFrame.insert is given a column whose
length differs from the frame length. -/
def insertLengthError : String :=
  "Length of values (100) does not match length of index"

/-- The Transform step, get_top_100_movies (lines 6 to 43): join, filter to
feature films, clean and coerce, sort by votes descending, take the first
100 rows, insert the Rank column, rename and select the public columns.
The insert at line 31 supplies exactly 100 rank values, so pandas raises a
length mismatch whenever fewer than 100 rows survived the join and
filtering; this is modelled by the error branch. -/
def get_top_100_movies (basics : List BasicsRow) (ratings : List RatingsRow) :
    Except String (List Movie) :=
  if (topCut basics ratings).length = 100 then
    .ok (rankRows (topCut basics ratings))
  else
    .error insertLengthError

/-! ### Genre splitting and counting (lines 58 to 59, 117 to 118, 188) -/

/-- The genre labels of one row: the comma-joined Genres field split into
individual labels.  A missing Genres cell contributes no label: str.split
maps NA to NA, explode keeps it as one NA element, and value_counts then
drops it, so for counting purposes the row contributes nothing. -/
def genreLabels (r : Movie) : List String :=
  match r.Genres with
  | none => []
  | some s => splitComma s

/-- The exploded label sequence df.Genres.str.split(comma).explode() with
NA elements dropped, as consumed by value_counts (lines 58 and 117). -/
def allGenres (df : DataFrame) : List String :=
  df.rows.flatMap genreLabels

/-- First occurrences of each distinct label, in order of appearance. -/
def uniqueInOrder (l : List String) : List String :=
  l.foldl (fun acc s => if s ∈ acc then acc else acc ++ [s]) []

/-- Descending-count order on labelled counts, used to model
value_counts. -/
def countOrder (a b : String × Nat) : Prop := b.2 ≤ a.2

instance : DecidableRel countOrder := fun a b => Nat.decLe b.2 a.2

/-- Series.value_counts(): each distinct label with its number of
occurrences, sorted by count descending.  Development note: pandas gives no
guarantee on the order of labels with equal counts; the embedding pairs
first-occurrence order with a stable sort, and every concrete input used in
a theorem below has pairwise distinct counts, so nothing depends on this
choice. -/
def valueCounts (l : List String) : List (String × Nat) :=
  List.insertionSort countOrder ((uniqueInOrder l).map (fun s => (s, l.count s)))

/-! ### Report: analyze_data (lines 45 to 62) -/

/-- Arithmetic mean of a list of rationals; none on the empty list, where
pandas mean gives NaN. -/
def meanRat (l : List Rat) : Option Rat :=
  if l.isEmpty then none else some (l.sum / (l.length : Rat))

/-- The values printed by analyze_data: row count, mean rating, mean
runtime over the rows that have one, total votes, the first row attaining
the minimum and the maximum year together with that year, and the three
most frequent genre labels with their counts.  The formatted text around
these values is presentation and is not modelled. -/
structure Report where
  totalMovies : Nat
  averageRating : Option Rat
  averageRuntime : Option Rat
  totalVotes : Nat
  oldestYear : Int
  oldestTitle : Option String
  newestYear : Int
  newestTitle : Option String
  topGenres : List (String × Nat)
deriving DecidableEq

/-- The Report step, analyze_data (lines 45 to 62).  The dataframe is
threaded through explicitly: the pair returned is the computed report (or
the error the script would raise) together with the dataframe as it stands
after the call.  The year lookups at lines 54 and 55 index .values[0] of
the rows matching the extreme year; when no row has a year this indexing
raises, modelled by the error branch.  Missing years compare as NA, which a
nullable-boolean mask treats as False, so find? over rows with that exact
year is the faithful lookup. -/
def analyze_data (df : DataFrame) : Except String Report × DataFrame :=
  let years := df.rows.filterMap (fun r => r.Year)
  let report :=
    match years.min?, years.max? with
    | some mn, some mx =>
      match df.rows.find? (fun r => decide (r.Year = some mn)),
            df.rows.find? (fun r => decide (r.Year = some mx)) with
      | some omin, some omax =>
        Except.ok
          { totalMovies := df.rows.length
            averageRating := meanRat (df.rows.map (fun r => r.Rating))
            averageRuntime := meanRat ((df.rows.filterMap (fun r => r.RuntimeMin)).map (fun n => (n : Rat)))
            totalVotes := (df.rows.map (fun r => r.Votes)).sum
            oldestYear := mn
            oldestTitle := omin.Title
            newestYear := mx
            newestTitle := omax.Title
            topGenres := (valueCounts (allGenres df)).take 3 }
      | _, _ => Except.error "index 0 is out of bounds"
    | _, _ => Except.error "index 0 is out of bounds"
  (report, df)

/-! ### Visualize: create_visualizations (lines 64 to 169) -/

/-- The Visualize step as it acts on the dataframe.  Chart rendering and
the image file are external output and are not part of the data model; the
one data effect is line 103, which writes the Decade column onto the
caller's dataframe: Year floor-divided by 10 then scaled back, with NA
years giving NA decades. -/
def create_visualizations (df : DataFrame) : DataFrame :=
  { rows := df.rows.map (fun r => { r with Decade := r.Year.map (fun y => Int.fdiv y 10 * 10) })
    hasDecadeColumn := true }

/-- The five most frequent genre labels, lines 117 to 118. -/
def panelCTopGenres (df : DataFrame) : List String :=
  ((valueCounts (allGenres df)).take 5).map (fun p => p.1)

/-- The genre_data rows built for Panel C at lines 121 to 128: for each of
the top five genre labels, the ratings of the rows whose raw comma-joined
Genres field CONTAINS the label as a substring (Series.str.contains at
line 123).  Rows with a missing Genres cell are not selected. -/
def panelCData (df : DataFrame) : List (String × Rat) :=
  (panelCTopGenres df).flatMap (fun g =>
    (df.rows.filter (fun r =>
      match r.Genres with
      | none => false
      | some s => strContains s g)).map (fun r => (g, r.Rating)))

/-! ### Rank-by-category: top_movies_by_genre (lines 171 to 199) -/

/-- The copies of one row produced by str.split(comma) at line 175
followed by explode at line 176: one copy per genre label, the copy
carrying that single label in its Genres field.  A row with a missing
Genres cell stays as one copy with a missing Genres cell (explode keeps
non-list NA values as they are). -/
def explodeRow (r : Movie) : List Movie :=
  match r.Genres with
  | none => [r]
  | some s => (splitComma s).map (fun g => { r with Genres := some g })

/-- The exploded frame of lines 174 to 176, without row identities. -/
def explodeAll (df : DataFrame) : List Movie :=
  df.rows.flatMap explodeRow

/-- The exploded frame with each copy tagged by the index of the row it
came from; explode preserves the frame index, so the tag is the row
identity. -/
def explodeGenresIdx (df : DataFrame) : List (Nat × Movie) :=
  df.rows.enum.flatMap (fun p => (explodeRow p.2).map (fun c => (p.1, c)))

/-- The two-key order of sort_values([Genres, Rating], ascending=[True,
False]) at line 179: genre labels ascending with missing genres last, and
rating descending within a genre.  A multi-column sort_values is a stable
lexsort in pandas, so the stable List.insertionSort is faithful here. -/
def genreRatingLE (a b : Movie) : Bool :=
  match a.Genres, b.Genres with
  | some x, some y =>
    match compare x y with
    | .lt => true
    | .gt => false
    | .eq => decide (b.Rating ≤ a.Rating)
  | some _, none => true
  | none, some _ => false
  | none, none => decide (b.Rating ≤ a.Rating)

/-- As genreRatingLE, with the vote count as secondary key (line 183). -/
def genreVotesLE (a b : Movie) : Bool :=
  match a.Genres, b.Genres with
  | some x, some y =>
    match compare x y with
    | .lt => true
    | .gt => false
    | .eq => decide (b.Votes ≤ a.Votes)
  | some _, none => true
  | none, some _ => false
  | none, none => decide (b.Votes ≤ a.Votes)

/-- The relation form of genreRatingLE for List.insertionSort. -/
def genreRatingOrder (a b : Movie) : Prop := genreRatingLE a b = true

instance : DecidableRel genreRatingOrder := fun a b => instDecidableEqBool (genreRatingLE a b) true

/-- The relation form of genreVotesLE for List.insertionSort. -/
def genreVotesOrder (a b : Movie) : Prop := genreVotesLE a b = true

instance : DecidableRel genreVotesOrder := fun a b => instDecidableEqBool (genreVotesLE a b) true

/-- groupby(Genres).head(n) (lines 180 and 184): keep a row when its genre
key is present and fewer than n earlier rows carry the same key; rows with
a missing key belong to no group and are dropped.  The keys of all earlier
rows are accumulated in seen. -/
def groupHeadGo (n : Nat) (seen : List (Option String)) : List Movie → List Movie
  | [] => []
  | x :: xs =>
    (if x.Genres ≠ none ∧ seen.count x.Genres < n then [x] else []) ++
      groupHeadGo n (x.Genres :: seen) xs

/-- groupby(Genres).head(n) on a whole frame. -/
def groupHead (n : Nat) (l : List Movie) : List Movie :=
  groupHeadGo n [] l

/-- The triple of columns printed for the rating leaderboard (line 196). -/
def ratingDisplay (r : Movie) : Option String × Rat × Option Int :=
  (r.Title, r.Rating, r.Year)

/-- The triple of columns printed for the votes leaderboard (line 199). -/
def votesDisplay (r : Movie) : Option String × Nat × Option Int :=
  (r.Title, r.Votes, r.Year)

/-- What the script prints as the top three movies of genre g by rating:
sort the exploded frame by (genre, rating descending), keep the first ten
rows of every genre group (line 180), restrict to genre g and take the
first three (line 191), then project the printed columns. -/
def printedTop3ByRating (df : DataFrame) (g : String) :
    List (Option String × Rat × Option Int) :=
  ((((groupHead 10 (List.insertionSort genreRatingOrder (explodeAll df)))).filter
      (fun r => decide (r.Genres = some g))).take 3).map ratingDisplay

/-- What the script prints as the top three movies of genre g by votes,
lines 183 to 184 and 193. -/
def printedTop3ByVotes (df : DataFrame) (g : String) :
    List (Option String × Nat × Option Int) :=
  ((((groupHead 10 (List.insertionSort genreVotesOrder (explodeAll df)))).filter
      (fun r => decide (r.Genres = some g))).take 3).map votesDisplay

/-- Modelled from the spec (section 4.5): the top three movies of genre g
by rating computed directly, with no intermediate top-ten step: the first
three rows of genre g in the sorted exploded frame, projected to the
printed columns.  This is the spec side of the refinement claim. -/
def specDirectTop3ByRating (df : DataFrame) (g : String) :
    List (Option String × Rat × Option Int) :=
  (((List.insertionSort genreRatingOrder (explodeAll df)).filter
      (fun r => decide (r.Genres = some g))).take 3).map ratingDisplay

/-- Modelled from the spec (section 4.5): the direct top three of genre g
by votes; spec side of the refinement claim. -/
def specDirectTop3ByVotes (df : DataFrame) (g : String) :
    List (Option String × Nat × Option Int) :=
  (((List.insertionSort genreVotesOrder (explodeAll df)).filter
      (fun r => decide (r.Genres = some g))).take 3).map votesDisplay

/-- The three most frequent genre labels of the exploded frame (line 188). -/
def top3GenreLabels (df : DataFrame) : List String :=
  ((valueCounts (allGenres df)).take 3).map (fun p => p.1)

/-- The Rank-by-category step, top_movies_by_genre (lines 171 to 199): for
each of the three most frequent genres, the printed rating and votes
leaderboards. -/
def top_movies_by_genre (df : DataFrame) :
    List (String × List (Option String × Rat × Option Int) × List (Option String × Nat × Option Int)) :=
  (top3GenreLabels df).map (fun g => (g, printedTop3ByRating df g, printedTop3ByVotes df g))

/-- The dataframe as the main block (lines 201 to 221) passes it to
top_movies_by_genre: the Transform result is handed to analyze_data, whose
returned state is handed to create_visualizations, whose returned state is
what the Rank-by-category step receives. -/
def mainDFAtRankStep (df : DataFrame) : DataFrame :=
  create_visualizations (analyze_data df).2

/-! ### Concrete sample inputs used by witnesses and counterexamples -/

/-- Synthetic basics table of n feature films with distinct identifiers and
complete fields. -/
def sampleBasics (n : Nat) : List BasicsRow :=
  (List.range n).map (fun i =>
    { tconst := i, titleType := "movie", primaryTitle := "T", startYear := "1990",
      runtimeMinutes := "90", genres := "Drama" })

/-- Matching ratings table: distinct, strictly descending vote counts. -/
def sampleRatings (n : Nat) : List RatingsRow :=
  (List.range n).map (fun i => { tconst := i, averageRating := 5, numVotes := 1000 - i })

/-- As sampleBasics 100, except that the first row carries the literal
missing-value marker in its startYear cell. -/
def basicsWithMissingYear : List BasicsRow :=
  (List.range 100).map (fun i =>
    { tconst := i, titleType := "movie", primaryTitle := "T",
      startYear := if i = 0 then missingMarker else "1990",
      runtimeMinutes := "90", genres := "Drama" })

/-- The Transform output on the missing-year input (the ok payload). -/
def transformMissingYearOut : List Movie :=
  (get_top_100_movies basicsWithMissingYear (sampleRatings 100)).toOption.getD []

/-- The top-ranked row of that output: highest vote count, year absent. -/
def missingYearTopRow : Movie :=
  { Rank := 1, Title := some "T", Year := none, Rating := 5, Votes := 1000,
    RuntimeMin := some 90, Genres := some "Drama", Decade := none }

/-- A result-set row whose only genre label is Music. -/
def musicRowA : Movie :=
  { Rank := 1, Title := some "A", Year := some 2000, Rating := 8, Votes := 300,
    RuntimeMin := some 100, Genres := some "Music", Decade := none }

/-- A second row whose only genre label is Music. -/
def musicRowB : Movie :=
  { Rank := 2, Title := some "B", Year := some 2005, Rating := 7, Votes := 200,
    RuntimeMin := some 110, Genres := some "Music", Decade := none }

/-- A row whose only genre label is Musical; the string Music occurs inside
it as a substring without being one of its labels. -/
def musicalRow : Movie :=
  { Rank := 3, Title := some "M", Year := some 2010, Rating := 9, Votes := 100,
    RuntimeMin := some 90, Genres := some "Musical", Decade := none }

/-- A three-row result set on which substring containment and label
membership disagree. -/
def musicFrame : DataFrame := ⟨[musicRowA, musicRowB, musicalRow], false⟩

/-- A row with the two comma-joined genre labels Comedy and Romance. -/
def comedyRomanceRow : Movie :=
  { Rank := 1, Title := some "C", Year := some 2001, Rating := 8, Votes := 50,
    RuntimeMin := some 95, Genres := some "Comedy,Romance", Decade := none }

/-- A row with the single genre label Action. -/
def actionRow : Movie :=
  { Rank := 2, Title := some "E", Year := some 1998, Rating := 6, Votes := 40,
    RuntimeMin := some 88, Genres := some "Action", Decade := none }

/-- A row with the single genre label Drama. -/
def dramaRow : Movie :=
  { Rank := 3, Title := some "D", Year := some 1997, Rating := 7, Votes := 30,
    RuntimeMin := some 92, Genres := some "Drama", Decade := none }

/-- The three-row scenario of the genre-counting claim. -/
def genreCountFrame : DataFrame := ⟨[comedyRomanceRow, actionRow, dramaRow], false⟩

/-- A row carrying the two comma-joined genre labels Action and Drama. -/
def actionDramaRow : Movie :=
  { Rank := 2, Title := some "AD", Year := some 1999, Rating := 7, Votes := 80,
    RuntimeMin := some 120, Genres := some "Action,Drama", Decade := none }

/-- A two-row frame whose second row carries Action,Drama. -/
def explodeFrame : DataFrame := ⟨[actionRow, actionDramaRow], false⟩

/-! ### Theorems -/

/-- C9: The Report step (analyze_data) is a pure read-only summarization:
for every input result set, the table is identical before and after the
call; no column is added, removed, or modified. -/
theorem claim_C9_thm : ∀ df : DataFrame, (analyze_data df).2 = df := by
  intro df
  rfl

/-- C10: The Visualize step (create_visualizations) mutates its input
result set: it adds a Decade column, Year rounded down to the nearest 10,
to the dataframe of the caller, so the same dataframe later passed to the
Rank-by-category step carries this extra column. -/
theorem claim_C10_thm : ∀ df : DataFrame,
    (mainDFAtRankStep df).hasDecadeColumn = true ∧
    (mainDFAtRankStep df).rows =
      df.rows.map (fun r => { r with Decade := r.Year.map (fun y => Int.fdiv y 10 * 10) }) := by
  intro df
  exact ⟨rfl, rfl⟩

/-- C6: Category frequency counting splits the multi-valued category field
of each row into individual labels and counts every label occurrence
independently: the count of a label over the exploded sequence is the sum
of the per-row occurrence counts of that label, and a row whose category
field is Comedy,Romance contributes exactly one count to Comedy and one to
Romance. -/
theorem claim_C6_thm : ∀ (df : DataFrame) (g : String),
    (allGenres df).count g = (df.rows.map (fun r => (genreLabels r).count g)).sum ∧
    ∀ r : Movie, r.Genres = some "Comedy,Romance" →
      (genreLabels r).count "Comedy" = 1 ∧ (genreLabels r).count "Romance" = 1 := by
  intro df g
  constructor
  · rw [allGenres, List.count_flatMap]
    rfl
  · intro r h
    constructor
    · simp only [genreLabels, h]
      decide
    · simp only [genreLabels, h]
      decide

/-- Witness for C6 on the three-row scenario frame. -/
theorem claim_C6_witness :
    comedyRomanceRow.Genres = some "Comedy,Romance" ∧
    (genreLabels comedyRomanceRow).count "Comedy" = 1 ∧
    (genreLabels comedyRomanceRow).count "Romance" = 1 :=
  ⟨rfl, (claim_C6_thm genreCountFrame "Comedy").2 comedyRomanceRow rfl⟩

/-- groupby(Genres).head(n) commutes with the later restriction to a single
genre: filtering the per-group head to genre g gives the first rows of
genre g, up to quota.  The accumulator counts how much of the quota of g is
already spent. -/
theorem groupHeadGo_filter (n : Nat) (g : String) :
    ∀ (l : List Movie) (seen : List (Option String)),
    (groupHeadGo n seen l).filter (fun r => decide (r.Genres = some g)) =
      (l.filter (fun r => decide (r.Genres = some g))).take (n - seen.count (some g)) := by
  intro l
  induction l with
  | nil => intro seen; simp [groupHeadGo]
  | cons x xs ih =>
    intro seen
    rw [groupHeadGo, List.filter_append, List.filter_cons, ih]
    by_cases hxg : x.Genres = some g
    · rw [hxg]
      have hcount : List.count (some g) ((some g : Option String) :: seen) =
          List.count (some g) seen + 1 := by
        simp [List.count_cons]
      rw [hcount]
      by_cases hlt : List.count (some g) seen < n
      · rw [if_pos ⟨by simp, hlt⟩]
        have hstep : n - List.count (some g) seen = (n - (List.count (some g) seen + 1)) + 1 := by
          omega
        rw [hstep]
        simp [List.filter_cons, hxg]
      · rw [if_neg (fun h => hlt h.2)]
        have h1 : n - (List.count (some g) seen + 1) = 0 := by omega
        have h2 : n - List.count (some g) seen = 0 := by omega
        simp [h1, h2]
    · have hcount : List.count (some g) (x.Genres :: seen) = List.count (some g) seen := by
        simp [List.count_cons, hxg]
      rw [hcount]
      by_cases hcond : x.Genres ≠ none ∧ List.count x.Genres seen < n
      · rw [if_pos hcond]
        simp [hxg]
      · rw [if_neg hcond]
        simp [hxg]

/-- C5: In the Rank-by-category step, computing the top 10 rows per genre
and then printing the first 3 of a genre produces output identical to
computing the top 3 of that genre directly, for both the rating and the
votes orderings; tie-breaking beyond the third position never affects the
printed output. -/
theorem claim_C5_thm : ∀ (df : DataFrame) (g : String),
    printedTop3ByRating df g = specDirectTop3ByRating df g ∧
    printedTop3ByVotes df g = specDirectTop3ByVotes df g := by
  intro df g
  constructor
  · rw [printedTop3ByRating, specDirectTop3ByRating, groupHead, groupHeadGo_filter]
    simp [List.take_take]
  · rw [printedTop3ByVotes, specDirectTop3ByVotes, groupHead, groupHeadGo_filter]
    simp [List.take_take]

/-- Filtering tagged copies by an index keeps all of them when the tag is
that index and none otherwise. -/
theorem filter_tagged_map (t i : Nat) (xs : List Movie) :
    (xs.map (fun c => (t, c))).filter (fun p : Nat × Movie => decide (p.1 = i)) =
      if t = i then xs.map (fun c => (t, c)) else [] := by
  induction xs with
  | nil => simp
  | cons x xs ih =>
    simp only [List.map_cons, List.filter_cons]
    by_cases h : t = i
    · simp [h, ih]
    · simp [h, ih]

/-- No exploded copy of rows enumerated from n carries a tag below n. -/
theorem explode_enumFrom_lt (l : List Movie) : ∀ (n i : Nat), i < n →
    ((List.enumFrom n l).flatMap (fun p => (explodeRow p.2).map (fun c => (p.1, c)))).filter
      (fun p : Nat × Movie => decide (p.1 = i)) = [] := by
  induction l with
  | nil => intro n i _; rfl
  | cons x xs ih =>
    intro n i h
    simp only [List.enumFrom, List.flatMap_cons, List.filter_append]
    rw [filter_tagged_map, if_neg (by omega), ih (n + 1) i (by omega)]
    rfl

/-- The exploded copies tagged n + k are exactly the copies of the row at
position k of the enumerated-from-n list. -/
theorem explode_enumFrom_get (l : List Movie) : ∀ (n k : Nat),
    ((List.enumFrom n l).flatMap (fun p => (explodeRow p.2).map (fun c => (p.1, c)))).filter
      (fun p : Nat × Movie => decide (p.1 = n + k)) =
      (l[k]?.map (fun r => (explodeRow r).map (fun c => (n + k, c)))).getD [] := by
  induction l with
  | nil => intro n k; simp
  | cons x xs ih =>
    intro n k
    simp only [List.enumFrom, List.flatMap_cons, List.filter_append]
    rw [filter_tagged_map]
    cases k with
    | zero =>
      rw [if_pos (by omega)]
      rw [explode_enumFrom_lt xs (n + 1) (n + 0) (by omega)]
      simp
    | succ k2 =>
      rw [if_neg (by omega)]
      have harith : n + (k2 + 1) = (n + 1) + k2 := by omega
      rw [harith, List.getElem?_cons_succ, ih (n + 1) k2]
      rfl

/-- The exploded copies tagged k are exactly the copies of row k. -/
theorem explode_enum_get (l : List Movie) (k : Nat) :
    ((List.enum l).flatMap (fun p => (explodeRow p.2).map (fun c => (p.1, c)))).filter
      (fun p : Nat × Movie => decide (p.1 = k)) =
      (l[k]?.map (fun r => (explodeRow r).map (fun c => (k, c)))).getD [] := by
  have h := explode_enumFrom_get l 0 k
  rw [Nat.zero_add] at h
  simpa [List.enum] using h

/-- C7: In the Rank-by-category step, the expansion of the result set
places a row with categories Action,Drama in exactly the Action candidate
pool and the Drama candidate pool and in no other pool: the exploded
copies carrying the index of that row are precisely one copy labelled
Action and one copy labelled Drama. -/
theorem claim_C7_thm : ∀ (df : DataFrame) (i : Nat) (r : Movie),
    df.rows[i]? = some r → r.Genres = some "Action,Drama" →
    (explodeGenresIdx df).filter (fun p : Nat × Movie => decide (p.1 = i)) =
      [(i, { r with Genres := some "Action" }), (i, { r with Genres := some "Drama" })] := by
  intro df i r hi hg
  rw [explodeGenresIdx, explode_enum_get, hi]
  have hs : splitComma "Action,Drama" = ["Action", "Drama"] := by decide
  simp [explodeRow, hg, hs]

/-- Witness for C7: the Action,Drama row at index 1 of the two-row frame
expands to exactly an Action copy and a Drama copy. -/
theorem claim_C7_witness :
    explodeFrame.rows[1]? = some actionDramaRow ∧
    actionDramaRow.Genres = some "Action,Drama" ∧
    (explodeGenresIdx explodeFrame).filter (fun p : Nat × Movie => decide (p.1 = 1)) =
      [(1, { actionDramaRow with Genres := some "Action" }),
       (1, { actionDramaRow with Genres := some "Drama" })] :=
  ⟨rfl, rfl, claim_C7_thm explodeFrame 1 actionDramaRow rfl rfl⟩

/-- Sorting does not change the number of rows. -/
theorem length_sortedMovies (basics : List BasicsRow) (ratings : List RatingsRow) :
    (sortedMovies basics ratings).length = (filteredMerge basics ratings).length := by
  rw [sortedMovies, (List.perm_insertionSort voteOrder _).length_eq, List.length_map]

/-- The head(100) cut has min 100 rows. -/
theorem length_topCut (basics : List BasicsRow) (ratings : List RatingsRow) :
    (topCut basics ratings).length = min 100 (filteredMerge basics ratings).length := by
  rw [topCut, List.length_take, length_sortedMovies]

/-- Projecting the Rank column out of the positional rank assignment gives
back the assigned rank values. -/
theorem zipWith_rank_map_rank : ∀ (ks : List Nat) (rs : List Movie), rs.length = ks.length →
    (List.zipWith (fun i r => { r with Rank := i }) ks rs).map (fun m => m.Rank) = ks
  | [], rs, _ => by simp
  | k :: ks, [], h => by simp at h
  | k :: ks, x :: rs, h => by
    rw [List.zipWith_cons_cons, List.map_cons,
      zipWith_rank_map_rank ks rs (by simpa using h)]

/-- Assigning ranks does not change the Votes column. -/
theorem zipWith_rank_map_votes : ∀ (ks : List Nat) (rs : List Movie), rs.length = ks.length →
    (List.zipWith (fun i r => { r with Rank := i }) ks rs).map (fun m => m.Votes) =
      rs.map (fun m => m.Votes)
  | [], rs, h => by
    have hrs : rs = [] := List.length_eq_zero.mp (by simpa using h)
    subst hrs
    simp
  | k :: ks, [], h => by simp at h
  | k :: ks, x :: rs, h => by
    rw [List.zipWith_cons_cons, List.map_cons, List.map_cons,
      zipWith_rank_map_votes ks rs (by simpa using h)]

/-- Every ranked row is a rank update of a row of the cut. -/
theorem mem_zipWith_rank : ∀ (ks : List Nat) (rs : List Movie) (y : Movie),
    y ∈ List.zipWith (fun i r => { r with Rank := i }) ks rs →
    ∃ x, x ∈ rs ∧ ∃ i, y = { x with Rank := i }
  | [], rs, y, h => by simp at h
  | k :: ks, [], y, h => by simp at h
  | k :: ks, x :: rs, y, h => by
    rw [List.zipWith_cons_cons] at h
    rcases List.mem_cons.mp h with h | h
    · exact ⟨x, List.mem_cons_self x rs, k, h⟩
    · obtain ⟨x2, hx2, i, hy⟩ := mem_zipWith_rank ks rs y h
      exact ⟨x2, List.mem_cons_of_mem x hx2, i, hy⟩

/-- The Votes column of the cut is non-increasing. -/
theorem pairwise_votes_topCut (basics : List BasicsRow) (ratings : List RatingsRow) :
    List.Pairwise (fun v w : Nat => w ≤ v) ((topCut basics ratings).map (fun m => m.Votes)) := by
  have hs : List.Pairwise voteOrder (sortedMovies basics ratings) :=
    List.sorted_insertionSort voteOrder _
  have ht : List.Pairwise voteOrder (topCut basics ratings) :=
    List.Pairwise.sublist (List.take_sublist 100 _) hs
  refine List.Pairwise.map (fun m => m.Votes) ?_ ht
  intro a c h
  exact h

/-- C1 (amended): when fewer than 100 rows survive the join and type
filter, get_top_100_movies raises the length-mismatch error of the Rank
insertion instead of returning the surviving rows; with at least 100
surviving rows it returns exactly 100 rows. -/
theorem claim_C1_thm : ∀ (basics : List BasicsRow) (ratings : List RatingsRow),
    ((filteredMerge basics ratings).length < 100 →
      get_top_100_movies basics ratings = .error insertLengthError) ∧
    (100 ≤ (filteredMerge basics ratings).length →
      ∃ out, get_top_100_movies basics ratings = .ok out ∧ out.length = 100) := by
  intro basics ratings
  constructor
  · intro h
    have hne : (topCut basics ratings).length ≠ 100 := by
      rw [length_topCut]
      omega
    rw [get_top_100_movies, if_neg hne]
  · intro h
    have heq : (topCut basics ratings).length = 100 := by
      rw [length_topCut]
      omega
    refine ⟨rankRows (topCut basics ratings), ?_, ?_⟩
    · rw [get_top_100_movies, if_pos heq]
    · rw [rankRows, List.length_zipWith, List.length_range', heq]
      simp

/-- Counterexample to C1 as stated: on a two-row surviving input the
Transform step raises the insert length error rather than returning the
two surviving rows. -/
theorem claim_C1_counterexample :
    (filteredMerge (sampleBasics 2) (sampleRatings 2)).length = 2 ∧
    get_top_100_movies (sampleBasics 2) (sampleRatings 2) = .error insertLengthError := by
  constructor
  · decide
  · rfl

/-- Witness for C1 (amended): the error branch at a 2-row input and the ok
branch at a 100-row input. -/
theorem claim_C1_witness :
    ((filteredMerge (sampleBasics 2) (sampleRatings 2)).length < 100 ∧
      get_top_100_movies (sampleBasics 2) (sampleRatings 2) = .error insertLengthError) ∧
    (100 ≤ (filteredMerge (sampleBasics 100) (sampleRatings 100)).length ∧
      ∃ out, get_top_100_movies (sampleBasics 100) (sampleRatings 100) = .ok out ∧
        out.length = 100) :=
  ⟨⟨by decide, (claim_C1_thm (sampleBasics 2) (sampleRatings 2)).1 (by decide)⟩,
   ⟨by decide, (claim_C1_thm (sampleBasics 100) (sampleRatings 100)).2 (by decide)⟩⟩

/-- C2: whenever the join and type filter leave at least 100 qualifying
rows, the Transform output has exactly 100 rows, its Rank column is the
strictly ascending sequence 1 to 100, and its Votes column is
non-increasing from rank 1 to rank 100. -/
theorem claim_C2_thm : ∀ (basics : List BasicsRow) (ratings : List RatingsRow),
    100 ≤ (filteredMerge basics ratings).length →
    ∃ out, get_top_100_movies basics ratings = .ok out ∧ out.length = 100 ∧
      out.map (fun m => m.Rank) = List.range' 1 100 ∧
      List.Chain' (fun v w : Nat => w ≤ v) (out.map (fun m => m.Votes)) := by
  intro basics ratings h
  have heq : (topCut basics ratings).length = 100 := by
    rw [length_topCut]
    omega
  have hklen : (topCut basics ratings).length = (List.range' 1 100).length := by
    rw [heq, List.length_range']
  refine ⟨rankRows (topCut basics ratings), ?_, ?_, ?_, ?_⟩
  · rw [get_top_100_movies, if_pos heq]
  · rw [rankRows, List.length_zipWith, List.length_range', heq]
    simp
  · exact zipWith_rank_map_rank _ _ hklen
  · rw [rankRows, zipWith_rank_map_votes _ _ hklen]
    exact (pairwise_votes_topCut basics ratings).chain'

/-- Witness for C2 at a synthetic 100-row qualifying input. -/
theorem claim_C2_witness :
    100 ≤ (filteredMerge (sampleBasics 100) (sampleRatings 100)).length ∧
    ∃ out, get_top_100_movies (sampleBasics 100) (sampleRatings 100) = .ok out ∧
      out.length = 100 ∧
      out.map (fun m => m.Rank) = List.range' 1 100 ∧
      List.Chain' (fun v w : Nat => w ≤ v) (out.map (fun m => m.Votes)) :=
  ⟨by decide, claim_C2_thm (sampleBasics 100) (sampleRatings 100) (by decide)⟩

/-- C8: every output row of the Transform step is the cleaned image of a
surviving joined row, its Year being the coerced year of that row; in
particular when the source year cell carries the literal missing-value
marker the output Year is the absent sentinel, never a coerced zero and
never an error. -/
theorem claim_C8_thm : ∀ (basics : List BasicsRow) (ratings : List RatingsRow)
    (out : List Movie) (row : Movie),
    get_top_100_movies basics ratings = .ok out → row ∈ out →
    ∃ m, m ∈ filteredMerge basics ratings ∧
      row.Title = cleanField m.1.primaryTitle ∧
      row.Year = coerceNumField m.1.startYear ∧
      (m.1.startYear = missingMarker → row.Year = none ∧ row.Year ≠ some 0) := by
  intro basics ratings out row hok hmem
  rw [get_top_100_movies] at hok
  by_cases hc : (topCut basics ratings).length = 100
  · rw [if_pos hc] at hok
    injection hok with hout
    subst hout
    obtain ⟨x, hx, i, hrow⟩ := mem_zipWith_rank _ _ row hmem
    have hxs : x ∈ sortedMovies basics ratings :=
      (List.take_sublist 100 _).subset hx
    have hxm : x ∈ (filteredMerge basics ratings).map cleanRow := by
      rw [sortedMovies] at hxs
      exact (List.mem_insertionSort voteOrder).mp hxs
    obtain ⟨m, hm, hcm⟩ := List.mem_map.mp hxm
    refine ⟨m, hm, ?_, ?_, ?_⟩
    · rw [hrow, ← hcm]
      rfl
    · rw [hrow, ← hcm]
      rfl
    · intro hmiss
      have hyear : row.Year = coerceNumField m.1.startYear := by
        rw [hrow, ← hcm]
        rfl
      rw [hyear, hmiss, coerceNumField, cleanField, if_pos rfl]
      exact ⟨rfl, by simp⟩
  · rw [if_neg hc] at hok
    exact absurd hok (by simp)

/-- Witness for C8: the rank-1 output row of the missing-year input has an
absent Year. -/
theorem claim_C8_witness :
    get_top_100_movies basicsWithMissingYear (sampleRatings 100) = .ok transformMissingYearOut ∧
    missingYearTopRow ∈ transformMissingYearOut ∧
    ∃ m, m ∈ filteredMerge basicsWithMissingYear (sampleRatings 100) ∧
      missingYearTopRow.Title = cleanField m.1.primaryTitle ∧
      missingYearTopRow.Year = coerceNumField m.1.startYear ∧
      (m.1.startYear = missingMarker →
        missingYearTopRow.Year = none ∧ missingYearTopRow.Year ≠ some 0) :=
  ⟨rfl, by decide,
   claim_C8_thm basicsWithMissingYear (sampleRatings 100) transformMissingYearOut
     missingYearTopRow rfl (by decide)⟩

/-- C4 (code bug): Panel C selects rows by substring containment on the
raw comma-joined category field, not by membership among the split labels.
On the three-row frame the top-five labels are Music and Musical, and the
row whose only label is Musical is nevertheless included in the Music
distribution, because Music occurs in Musical as a substring while not
being one of its split labels. -/
theorem claim_C4_thm :
    panelCTopGenres musicFrame = ["Music", "Musical"] ∧
    panelCData musicFrame =
      [("Music", (8 : Rat)), ("Music", (7 : Rat)), ("Music", (9 : Rat)), ("Musical", (9 : Rat))] ∧
    ("Music", (9 : Rat)) ∈ panelCData musicFrame ∧
    musicalRow.Rating = (9 : Rat) ∧
    ¬ ("Music" ∈ splitComma "Musical") := by
  refine ⟨by decide, by decide, by decide, by decide, by decide⟩
